import Mathlib

set_option maxHeartbeats 1000000

/-!
Shallow embedding of the serial-number allocation and indexing engine of the
Label-Master-3000 repository (src/business_logic.py): the component registry
(GestioneComponenti), the serial allocator (GestoreSerialNumber) and the batch
orchestrator (GeneratoreExcel.crea_documento_con_componenti), restricted to the
state and record-producing behavior (spreadsheet formatting is ignored).
Python dictionaries are modelled as association lists, the current date is an
explicit parameter, and the durable JSON file is a second copy of the state
together with a flag saying whether a write attempt succeeds.
-/

/-- Zero-pad the decimal digits of a natural number to a minimum width, as the
Python format spec 0Nd does for nonnegative values (numbers with more digits
than the width are kept whole). -/
def padNat (w : Nat) (n : Nat) : String :=
  let s := toString n
  String.mk (List.replicate (w - s.length) '0') ++ s

/-- Python format 0Nd on an arbitrary integer: the minus sign counts toward
the requested width. -/
def padInt (w : Nat) (n : Int) : String :=
  if n < 0 then "-" ++ padNat (w - 1) n.natAbs else padNat w n.toNat

/-- One value of the allocator store: self.stato[descrizione] as written by
genera_serial_number (keys ultimo_sn, data_ultimo_utilizzo, code_12nc). -/
structure SerialEntry where
  ultimo_sn : Int
  data_ultimo_utilizzo : String
  code_12nc : Option String
  deriving DecidableEq

/-- Dictionary lookup on the allocator store (descrizione in self.stato /
self.stato[descrizione]). -/
def lookupStato : List (String × SerialEntry) → String → Option SerialEntry
  | [], _ => none
  | (k, v) :: rest, d => if k = d then some v else lookupStato rest d

/-- Dictionary assignment self.stato[descrizione] = entry: replace the binding
if the key is present, append it otherwise. -/
def insertStato : List (String × SerialEntry) → String → SerialEntry → List (String × SerialEntry)
  | [], d, e => [(d, e)]
  | (k, v) :: rest, d, e => if k = d then (d, e) :: rest else (k, v) :: insertStato rest d e

/-- The state of GestoreSerialNumber: the in-memory dict self.stato and the
contents of the JSON file it is persisted to. -/
structure GestoreState where
  stato : List (String × SerialEntry)
  disco : List (String × SerialEntry)
  deriving DecidableEq

/-- The parts of datetime.now() that genera_serial_number reads. -/
structure Ora where
  month : Nat
  year : Nat
  isoformat : String
  deriving DecidableEq

/-- The letter table of _get_mese_lettera. -/
def lettereMesi : List String :=
  ["A", "B", "C", "D", "E", "F", "G", "H", "I", "J", "K", "L"]

/-- _get_mese_lettera: lettere[mese - 1]. Callers always pass
datetime.now().month, which lies in 1..12, so the out-of-range default is
never reached there. -/
def getMeseLettera (mese : Nat) : String :=
  lettereMesi.getD (mese - 1) ""

/-- _salva_stato: the json.dump call is wrapped in a try/except that only
prints the error, so a failing write leaves the file untouched and never
raises; writeOk says whether the ambient write attempt succeeds. -/
def salvaStato (writeOk : Bool) (s : GestoreState) : GestoreState :=
  if writeOk then { s with disco := s.stato } else s

/-- genera_serial_number(descrizione, sn_iniziale, code_12nc): picks the
counter (explicit sn_iniziale wins, else stored ultimo_sn + 1, else 0),
formats the serial as letter + two-digit year + space + five-digit counter,
overwrites the state entry, saves, and returns the serial. -/
def generaSerialNumber (ora : Ora) (writeOk : Bool) (s : GestoreState)
    (descrizione : String) (sn_iniziale : Option Int) (code_12nc : Option String) :
    String × GestoreState :=
  let anno := ora.year % 100
  let mese_lettera := getMeseLettera ora.month
  let numero_incrementale : Int :=
    match sn_iniziale with
    | some v => v
    | none =>
      match lookupStato s.stato descrizione with
      | some entry => entry.ultimo_sn + 1
      | none => 0
  let sn := mese_lettera ++ padNat 2 anno ++ " " ++ padInt 5 numero_incrementale
  let stato2 := insertStato s.stato descrizione
    ⟨numero_incrementale, ora.isoformat, code_12nc⟩
  (sn, salvaStato writeOk { s with stato := stato2 })

/-- The inizio_indicizzazione_prefisso field: Python Optional[Union[int,
List[int]]] as a tagged variant. -/
inductive InizioIndic where
  | niente
  | intero (o : Int)
  | lista (l : List Int)
  deriving DecidableEq

/-- One entry of the component registry (the dict built by
aggiungi_componente / modifica_componente). -/
structure Componente where
  nome : String
  code_12nc : String
  sn_iniziale : Option Int
  prefisso_tipo_scheda : Option String
  indicizzazione : Bool
  inizio_indicizzazione_prefisso : InizioIndic
  deriving DecidableEq

/-- cerca_componente_per_nome: first entry with the given name. -/
def cercaComponentePerNome (componenti : List Componente) (nome : String) : Option Componente :=
  componenti.find? (fun c => c.nome == nome)

/-- aggiungi_componente: refuses an already-present name without touching the
list, otherwise appends the new record (and saves). -/
def aggiungiComponente (componenti : List Componente) (c : Componente) :
    Bool × List Componente :=
  match cercaComponentePerNome componenti c.nome with
  | some _ => (false, componenti)
  | none => (true, componenti ++ [c])

/-- modifica_componente: replaces the first entry whose nome equals
nome_originale with the freshly built record; the new name is not checked
against the other entries. -/
def modificaComponente : List Componente → String → Componente → Bool × List Componente
  | [], _, _ => (false, [])
  | c :: rest, nome_originale, nuovo =>
    if c.nome = nome_originale then (true, nuovo :: rest)
    else
      let r := modificaComponente rest nome_originale nuovo
      (r.1, c :: r.2)

/-- elimina_componente: removes every entry with the given name; true iff the
list shrank. -/
def eliminaComponente (componenti : List Componente) (nome : String) :
    Bool × List Componente :=
  let rimasti := componenti.filter (fun c => !(c.nome == nome))
  (rimasti.length < componenti.length, rimasti)

/-- Python truthiness of an optional string (if not code_12nc): None and the
empty string are falsy. -/
def strFalsy : Option String → Bool
  | none => true
  | some s => s.isEmpty

/-- One element of the componenti argument of crea_documento_con_componenti:
the per-run request dict assembled by the interface. -/
structure RichiestaComponente where
  nome : String
  sn_iniziale : Option Int
  prefisso_tipo_scheda : Option String
  code_12nc : Option String
  quantita : Nat
  indicizzazione : Bool
  inizio_indicizzazione_prefisso : InizioIndic
  deriving DecidableEq

/-- One element of componenti_sn_calcolati, the preprocessed per-component
data built before the bus loop. -/
structure CompInfo where
  nome : String
  quantita : Nat
  prossimo_sn : Int
  prefisso_tipo_scheda : Option String
  code_12nc : Option String
  indicizzazione : Bool
  inizio_indicizzazione_prefisso : InizioIndic
  deriving DecidableEq

/-- The ValueError raises of crea_documento_con_componenti; the mandatory
CODE 12NC message is kept as its own case so it can be observed. -/
inductive RunError where
  | valore (msg : String)
  | codiceMancante (nome : String)
  deriving DecidableEq

/-- The preprocessing step for one component (lines 490-528): resolve the
final CODE 12NC (raising when a never-seen component has no truthy code) and
the run-start counter prossimo_sn. -/
def preprocessaComponente (stato : List (String × SerialEntry))
    (componente : RichiestaComponente) : Except RunError CompInfo :=
  let componente_memorizzato := (lookupStato stato componente.nome).isSome
  let codice? : Except RunError (Option String) :=
    if componente_memorizzato then
      let code_12nc_salvato :=
        match lookupStato stato componente.nome with
        | some e => e.code_12nc
        | none => none
      .ok (if strFalsy componente.code_12nc then code_12nc_salvato else componente.code_12nc)
    else
      if strFalsy componente.code_12nc then .error (.codiceMancante componente.nome)
      else .ok componente.code_12nc
  match codice? with
  | .error e => .error e
  | .ok code_12nc_finale =>
    let prossimo_sn : Int :=
      match componente.sn_iniziale with
      | some v => v
      | none =>
        match lookupStato stato componente.nome with
        | some e => e.ultimo_sn + 1
        | none => 0
    .ok ⟨componente.nome, componente.quantita, prossimo_sn,
         componente.prefisso_tipo_scheda, code_12nc_finale,
         componente.indicizzazione, componente.inizio_indicizzazione_prefisso⟩

/-- The preprocessing loop over the whole componenti list, stopping at the
first raise. -/
def preprocessaLista (stato : List (String × SerialEntry)) :
    List RichiestaComponente → Except RunError (List CompInfo)
  | [] => .ok []
  | c :: rest =>
    match preprocessaComponente stato c with
    | .error e => .error e
    | .ok ci =>
      match preprocessaLista stato rest with
      | .error e => .error e
      | .ok resto => .ok (ci :: resto)

/-- The numero_indic computation of the label loop (lines 568-577): a
non-empty list cycles through its values by element index, a plain integer is
an offset, anything else (None, or an empty list) counts from 1. -/
def numeroIndic (inizio_indic : InizioIndic) (elemento_idx : Nat) : Int :=
  match inizio_indic with
  | .lista l =>
    if 0 < l.length then l.getD (elemento_idx % l.length) 0
    else (elemento_idx : Int) + 1
  | .intero o => o + elemento_idx
  | .niente => (elemento_idx : Int) + 1

/-- The tipo_scheda string of one generated row (lines 563-582): empty without
a truthy prefix, the bare prefix when indexing is off, prefix + index
otherwise. -/
def tipoScheda (ci : CompInfo) (elemento_idx : Nat) : String :=
  if strFalsy ci.prefisso_tipo_scheda then ""
  else
    let prefisso := ci.prefisso_tipo_scheda.getD ""
    if ci.indicizzazione then
      prefisso ++ toString (numeroIndic ci.inizio_indicizzazione_prefisso elemento_idx)
    else prefisso

/-- One generated output row, keeping the data columns the engine computes
(supplier/bolla columns are run-constant strings and are dropped). -/
structure RecordGenerato where
  bus_number : Int
  nome : String
  code_12nc : Option String
  part_number : String
  tipo_scheda : String
  deriving DecidableEq

/-- The mutable state threaded through the generation loop: the allocator,
the primo_utilizzo flags (a name is in consumati exactly when its flag has
been set to False), and the rows emitted so far. -/
structure StatoEsecuzione where
  gsn : GestoreState
  consumati : List String
  records : List RecordGenerato
  deriving DecidableEq

/-- The body of the innermost loop (lines 544-614): allocate a serial (with
prossimo_sn and the code only on the component's first use in the run),
compute the label, emit the row. -/
def processaElemento (ora : Ora) (writeOk : Bool) (bus_number : Int) (ci : CompInfo)
    (elemento_idx : Nat) (rs : StatoEsecuzione) : StatoEsecuzione :=
  let r :=
    if rs.consumati.contains ci.nome then
      generaSerialNumber ora writeOk rs.gsn ci.nome none none
    else
      generaSerialNumber ora writeOk rs.gsn ci.nome (some ci.prossimo_sn) ci.code_12nc
  let consumati2 :=
    if rs.consumati.contains ci.nome then rs.consumati else ci.nome :: rs.consumati
  { gsn := r.2, consumati := consumati2,
    records := rs.records ++
      [⟨bus_number, ci.nome, ci.code_12nc, r.1, tipoScheda ci elemento_idx⟩] }

/-- for elemento_idx in range(quantita). -/
def processaElementi (ora : Ora) (writeOk : Bool) (bus_number : Int) (ci : CompInfo)
    (rs : StatoEsecuzione) : StatoEsecuzione :=
  (List.range ci.quantita).foldl
    (fun st idx => processaElemento ora writeOk bus_number ci idx st) rs

/-- for comp_info in componenti_sn_calcolati. -/
def processaComponenti (ora : Ora) (writeOk : Bool) (bus_number : Int)
    (cis : List CompInfo) (rs : StatoEsecuzione) : StatoEsecuzione :=
  cis.foldl (fun st ci => processaElementi ora writeOk bus_number ci st) rs

/-- for bus_idx in range(numero_bus), with bus_number = bus_iniziale + bus_idx. -/
def processaBusLoop (ora : Ora) (writeOk : Bool) (bus_iniziale : Int) (numero_bus : Nat)
    (cis : List CompInfo) (rs : StatoEsecuzione) : StatoEsecuzione :=
  (List.range numero_bus).foldl
    (fun st bus_idx => processaComponenti ora writeOk (bus_iniziale + bus_idx) cis st) rs

/-- One step of the post-run synchronization loop (lines 619-643): when the
component is in the allocator state and in the registry, rewrite its registry
entry keeping the stored name, code, prefix and indexing flag, setting
sn_iniziale to ultimo_sn + 1 and the index start to the run-supplied value. -/
def writeBackUno (stato : List (String × SerialEntry)) (registro : List Componente)
    (componente : RichiestaComponente) : List Componente :=
  match lookupStato stato componente.nome with
  | none => registro
  | some entry =>
    match cercaComponentePerNome registro componente.nome with
    | none => registro
    | some comp_db =>
      (modificaComponente registro componente.nome
        ⟨comp_db.nome, comp_db.code_12nc, some (entry.ultimo_sn + 1),
         comp_db.prefisso_tipo_scheda, comp_db.indicizzazione,
         componente.inizio_indicizzazione_prefisso⟩).2

/-- The whole post-run synchronization over the original componenti list. -/
def writeBack (stato : List (String × SerialEntry)) (registro : List Componente)
    (componenti : List RichiestaComponente) : List Componente :=
  componenti.foldl (fun reg c => writeBackUno stato reg c) registro

/-- crea_documento_con_componenti, reduced to its engine behavior: input
validation, preprocessing, the generation loop, and the registry write-back.
The result carries the run outcome together with the final allocator state and
registry (unchanged when the run raises during validation/preprocessing, as
those steps mutate nothing). -/
def creaDocumentoConComponenti (ora : Ora) (writeOk : Bool) (gsn : GestoreState)
    (gestione_componenti : Option (List Componente)) (bolla_produzione bolla_vendita : String)
    (numero_bus : Int) (componenti : List RichiestaComponente) (bus_iniziale : Int) :
    Except RunError (List RecordGenerato) × GestoreState × Option (List Componente) :=
  if bolla_produzione.isEmpty || bolla_vendita.isEmpty then
    (.error (.valore "Bolla Produzione e Bolla Vendita sono campi obbligatori"),
     gsn, gestione_componenti)
  else if numero_bus ≤ 0 then
    (.error (.valore "Il numero di bus deve essere maggiore di 0"), gsn, gestione_componenti)
  else if componenti.isEmpty then
    (.error (.valore "Almeno un componente e obbligatorio"), gsn, gestione_componenti)
  else
    match preprocessaLista gsn.stato componenti with
    | .error e => (.error e, gsn, gestione_componenti)
    | .ok cis =>
      let rs := processaBusLoop ora writeOk bus_iniziale numero_bus.toNat cis ⟨gsn, [], []⟩
      let gestione2 := gestione_componenti.map (fun reg => writeBack rs.gsn.stato reg componenti)
      (.ok rs.records, rs.gsn, gestione2)

/-- The counter-priority rule in the words of the specification: an explicit
override wins, else stored lastSerial + 1, else 0. -/
def contatoreDaSpec (stato : List (String × SerialEntry)) (d : String)
    (override : Option Int) : Int :=
  match override with
  | some v => v
  | none =>
    match lookupStato stato d with
    | some e => e.ultimo_sn + 1
    | none => 0

/-- The month-letter mapping in the words of the specification:
1 maps to A, 2 to B, ..., 12 to L. -/
def specLetteraMese (m : Nat) : String :=
  match m with
  | 1 => "A" | 2 => "B" | 3 => "C" | 4 => "D" | 5 => "E" | 6 => "F"
  | 7 => "G" | 8 => "H" | 9 => "I" | 10 => "J" | 11 => "K" | 12 => "L"
  | _ => ""

/-- The serial shape in the words of the specification: month letter, then
the year modulo 100 as two digits, a space, and the counter zero-padded to
five digits. -/
def specFormato (month year : Nat) (counter : Int) : String :=
  specLetteraMese month ++ padNat 2 (year % 100) ++ " " ++ padInt 5 counter

/-- Initial registry for the June-2025 scenario run: one stored SENSOR entry. -/
def c2Registro : List Componente :=
  [⟨"SENSOR", "OLD", none, some "SU", true, .niente⟩]

/-- Request of the June-2025 scenario run: SENSOR, quantity 1 per bus, part
code "ABC123", no override, absent index policy, prefix "SU", indexing on. -/
def c2Richiesta : RichiestaComponente :=
  ⟨"SENSOR", none, some "SU", some "ABC123", 1, true, .niente⟩

/-- The June-2025 scenario run: 2 buses starting at bus 5, empty allocator
state, the registry above. -/
def c2Esito :
    Except RunError (List RecordGenerato) × GestoreState × Option (List Componente) :=
  creaDocumentoConComponenti ⟨6, 2025, "takt"⟩ true ⟨[], []⟩ (some c2Registro)
    "BP" "BV" 2 [c2Richiesta] 5

/-! ## Helper lemmas -/

theorem salvaStato_stato (writeOk : Bool) (s : GestoreState) :
    (salvaStato writeOk s).stato = s.stato := by
  unfold salvaStato
  cases writeOk <;> simp

theorem lookupStato_insertStato_self (st : List (String × SerialEntry)) (d : String)
    (e : SerialEntry) : lookupStato (insertStato st d e) d = some e := by
  induction st with
  | nil => simp [insertStato, lookupStato]
  | cons kv rest ih =>
    obtain ⟨k, v⟩ := kv
    by_cases h : k = d <;> simp [insertStato, lookupStato, h, ih]

/-! ## Claim theorems -/

/-- Claim C1: genera_serial_number chooses the issued counter by the claimed
priority (explicit override, else stored lastSerial + 1, else 0), issues a
serial formatted from exactly that counter, and updates the stored lastSerial
to the issued counter in every case. -/
theorem genera_counter_priority (ora : Ora) (writeOk : Bool) (s : GestoreState)
    (d : String) (ov : Option Int) (code : Option String) :
    (generaSerialNumber ora writeOk s d ov code).1
      = getMeseLettera ora.month ++ padNat 2 (ora.year % 100) ++ " "
        ++ padInt 5 (contatoreDaSpec s.stato d ov)
    ∧ lookupStato ((generaSerialNumber ora writeOk s d ov code).2).stato d
      = some ⟨contatoreDaSpec s.stato d ov, ora.isoformat, code⟩ := by
  unfold generaSerialNumber contatoreDaSpec
  refine ⟨rfl, ?_⟩
  rw [salvaStato_stato]
  exact lookupStato_insertStato_self ..

theorem getMeseLettera_eq_spec (m : Nat) (h1 : 1 ≤ m) (h2 : m ≤ 12) :
    getMeseLettera m = specLetteraMese m := by
  interval_cases m <;> rfl

/-- Claim C3: every serial produced by genera_serial_number has the claimed
shape - month letter (1 maps to A ... 12 to L), two-digit year modulo 100, a
space, the issued counter zero-padded to five digits - and in particular
month 10, year 2025, counter 138 gives "J25 00138". -/
theorem serial_formato (ora : Ora) (writeOk : Bool) (s : GestoreState)
    (d : String) (ov : Option Int) (code : Option String)
    (h1 : 1 ≤ ora.month) (h2 : ora.month ≤ 12) :
    (generaSerialNumber ora writeOk s d ov code).1
      = specFormato ora.month ora.year (contatoreDaSpec s.stato d ov)
    ∧ (generaSerialNumber ⟨10, 2025, "t"⟩ true ⟨[], []⟩ "PROD" (some 138) none).1
      = "J25 00138" := by
  constructor
  · unfold generaSerialNumber specFormato contatoreDaSpec
    rw [getMeseLettera_eq_spec ora.month h1 h2]
  · decide

/-- Witness for C3 at a concrete input. -/
theorem serial_formato_witness :
    (1 ≤ 6 ∧ 6 ≤ 12)
    ∧ (generaSerialNumber ⟨6, 2025, "t"⟩ true ⟨[], []⟩ "X" none none).1
      = specFormato 6 2025 (contatoreDaSpec [] "X" none) :=
  ⟨⟨by decide, by decide⟩,
   (serial_formato ⟨6, 2025, "t"⟩ true ⟨[], []⟩ "X" none none (by decide) (by decide)).1⟩

/-- Claim C5 counterexample: with a failing write, the allocate call still
returns the formatted serial normally (the except handler only logs), while
the in-memory state advances and the durable file stays behind - at this
concrete input the call yields "F25 00000" and leaves the disk empty. -/
theorem persistenza_fallita_silenziosa :
    (generaSerialNumber ⟨6, 2025, "t"⟩ false ⟨[], []⟩ "D" none none).1 = "F25 00000"
    ∧ (generaSerialNumber ⟨6, 2025, "t"⟩ false ⟨[], []⟩ "D" none none).2.stato
      = [("D", ⟨0, "t", none⟩)]
    ∧ (generaSerialNumber ⟨6, 2025, "t"⟩ false ⟨[], []⟩ "D" none none).2.disco = []
    ∧ (generaSerialNumber ⟨6, 2025, "t"⟩ false ⟨[], []⟩ "D" none none).2.stato
      ≠ (generaSerialNumber ⟨6, 2025, "t"⟩ false ⟨[], []⟩ "D" none none).2.disco := by
  refine ⟨by decide, by decide, by decide, by decide⟩

/-- Claim C5 amended: a failure to write the durable store is suppressed, not
fatal - the call still returns the formatted serial, the in-memory state is
updated to the issued counter, and the durable store is left unchanged. -/
theorem scrittura_fallita_non_fatale (ora : Ora) (s : GestoreState) (d : String)
    (ov : Option Int) (code : Option String) :
    (generaSerialNumber ora false s d ov code).1
      = getMeseLettera ora.month ++ padNat 2 (ora.year % 100) ++ " "
        ++ padInt 5 (contatoreDaSpec s.stato d ov)
    ∧ (generaSerialNumber ora false s d ov code).2.disco = s.disco
    ∧ (generaSerialNumber ora false s d ov code).2.stato
      = insertStato s.stato d ⟨contatoreDaSpec s.stato d ov, ora.isoformat, code⟩ := by
  unfold generaSerialNumber contatoreDaSpec salvaStato
  exact ⟨rfl, by simp, by simp⟩

/-- Claim C6 counterexample: a description whose stored entry has
associatedCode "C" loses it on an allocate call with no code - at this
concrete input the stored code after the call is absent, not "C". -/
theorem codice_cancellato :
    lookupStato ((generaSerialNumber ⟨6, 2025, "t2"⟩ true
        ⟨[("D", ⟨5, "t1", some "C"⟩)], [("D", ⟨5, "t1", some "C"⟩)]⟩
        "D" none none).2).stato "D"
      = some ⟨6, "t2", none⟩
    ∧ (lookupStato ((generaSerialNumber ⟨6, 2025, "t2"⟩ true
        ⟨[("D", ⟨5, "t1", some "C"⟩)], [("D", ⟨5, "t1", some "C"⟩)]⟩
        "D" none none).2).stato "D").map (fun e => e.code_12nc)
      ≠ some (some "C") := by
  refine ⟨by decide, by decide⟩

/-- Claim C6 amended: genera_serial_number always overwrites the stored
associatedCode with its code argument, so calling without a code clears the
stored code to absent instead of leaving it unchanged. -/
theorem codice_sempre_sovrascritto (ora : Ora) (writeOk : Bool) (s : GestoreState)
    (d : String) (ov : Option Int) (code : Option String) :
    (lookupStato ((generaSerialNumber ora writeOk s d ov code).2).stato d).map
        (fun e => e.code_12nc)
      = some code := by
  unfold generaSerialNumber
  rw [salvaStato_stato, lookupStato_insertStato_self]
  rfl

/-- Claim C9: an empty-list index policy never indexes into the list (the
length guard fails first), and the index equals position + 1, the same value
the absent policy gives. -/
theorem lista_vuota_come_assente (p : Nat) :
    numeroIndic (.lista []) p = (p : Int) + 1
    ∧ numeroIndic (.lista []) p = numeroIndic .niente p := by
  refine ⟨by simp [numeroIndic], by simp [numeroIndic]⟩

/-- Claim C2: the scenario run (2 buses from bus 5, one SENSOR with quantity
1 per bus, first-ever allocation, code "ABC123", no override, absent policy,
prefix "SU", indexing on, June 2025) emits exactly bus 5 with serial
"F25 00000" and label "SU1", then bus 6 with serial "F25 00001" and label
"SU1", and afterwards the registry resume point (sn_iniziale) for SENSOR
is 2. -/
theorem scenario_giugno :
    c2Esito.1 = .ok [⟨5, "SENSOR", some "ABC123", "F25 00000", "SU1"⟩,
                     ⟨6, "SENSOR", some "ABC123", "F25 00001", "SU1"⟩]
    ∧ c2Esito.2.2 = some [⟨"SENSOR", "OLD", some 2, some "SU", true, .niente⟩] := by
  refine ⟨rfl, rfl⟩

/-- Claim C4: the index used in the card-type label is position + 1 for the
absent policy, offset + position for an integer policy, and the cyclic list
value at position mod length for a non-empty list policy; and the label the
loop body emits at per-bus position p is the same for every bus number and
every allocator state, so the position resets with each bus. -/
theorem indice_per_posizione :
    (∀ p : Nat, numeroIndic .niente p = (p : Int) + 1)
    ∧ (∀ (o : Int) (p : Nat), numeroIndic (.intero o) p = o + p)
    ∧ (∀ (L : List Int) (p : Nat), 0 < L.length →
        numeroIndic (.lista L) p = L.getD (p % L.length) 0)
    ∧ (∀ (ora ora2 : Ora) (w w2 : Bool) (b b2 : Int) (ci : CompInfo) (p : Nat)
        (rs rs2 : StatoEsecuzione),
        ((processaElemento ora w b ci p rs).records.getLast?).map (fun r => r.tipo_scheda)
          = ((processaElemento ora2 w2 b2 ci p rs2).records.getLast?).map
              (fun r => r.tipo_scheda)) := by
  refine ⟨fun p => rfl, fun o p => rfl, fun L p h => by simp [numeroIndic, h], ?_⟩
  intro ora ora2 w w2 b b2 ci p rs rs2
  simp [processaElemento, List.getLast?_concat]

/-- Witness for C4 at a concrete input. -/
theorem indice_per_posizione_witness :
    0 < ([1, 3, 5] : List Int).length
    ∧ numeroIndic (.lista [1, 3, 5]) 3 = ([1, 3, 5] : List Int).getD (3 % 3) 0 :=
  ⟨by decide, indice_per_posizione.2.2.1 [1, 3, 5] 3 (by decide)⟩

/-- Claim C7 counterexample: starting from an empty registry, add "A", add
"B", then update "A" renaming it to "B": the update succeeds and leaves two
entries named "B", so the operations do not preserve name uniqueness. -/
theorem modifica_rompe_unicita :
    ((modificaComponente
        (aggiungiComponente
          (aggiungiComponente [] ⟨"A", "111", none, none, true, .niente⟩).2
          ⟨"B", "222", none, none, true, .niente⟩).2
        "A" ⟨"B", "111", none, none, true, .niente⟩).2).map (fun c => c.nome)
      = ["B", "B"]
    ∧ ¬ (((modificaComponente
        (aggiungiComponente
          (aggiungiComponente [] ⟨"A", "111", none, none, true, .niente⟩).2
          ⟨"B", "222", none, none, true, .niente⟩).2
        "A" ⟨"B", "111", none, none, true, .niente⟩).2).map (fun c => c.nome)).Nodup := by
  refine ⟨by decide, by decide⟩

theorem cerca_none_not_mem (cs : List Componente) (nome : String)
    (h : cercaComponentePerNome cs nome = none) : nome ∉ cs.map (fun x => x.nome) := by
  intro hmem
  obtain ⟨x, hx, hxe⟩ := List.mem_map.mp hmem
  have hfind := List.find?_eq_none.mp h x hx
  simp [hxe] at hfind

/-- Claim C7 amended: add returns false and leaves the store untouched when
the name already exists, and add and remove preserve name uniqueness; update
however does not check the new name, so (per the counterexample) renaming an
entry onto an existing name can break uniqueness. -/
theorem registro_unicita (cs : List Componente) (c : Componente) (x : Componente)
    (nome : String) :
    (cercaComponentePerNome cs c.nome = some x → aggiungiComponente cs c = (false, cs))
    ∧ ((cs.map (fun y => y.nome)).Nodup →
        (((aggiungiComponente cs c).2).map (fun y => y.nome)).Nodup)
    ∧ ((cs.map (fun y => y.nome)).Nodup →
        (((eliminaComponente cs nome).2).map (fun y => y.nome)).Nodup) := by
  refine ⟨?_, ?_, ?_⟩
  · intro hx
    simp [aggiungiComponente, hx]
  · intro hnd
    cases h : cercaComponentePerNome cs c.nome with
    | some y => simpa [aggiungiComponente, h] using hnd
    | none =>
      have hni := cerca_none_not_mem cs c.nome h
      simp [aggiungiComponente, h, List.nodup_append, hnd, hni]
  · intro hnd
    have hsub : (((eliminaComponente cs nome).2).map (fun y => y.nome)).Sublist
        (cs.map (fun y => y.nome)) :=
      List.Sublist.map _ (List.filter_sublist cs)
    exact hnd.sublist hsub

/-- Witness for C7 amended at concrete inputs. -/
theorem registro_unicita_witness :
    aggiungiComponente [⟨"A", "1", none, none, true, .niente⟩]
        ⟨"A", "2", none, none, true, .niente⟩
      = (false, [⟨"A", "1", none, none, true, .niente⟩])
    ∧ (((aggiungiComponente [⟨"A", "1", none, none, true, .niente⟩]
        ⟨"B", "2", none, none, true, .niente⟩).2).map (fun y => y.nome)).Nodup
    ∧ (((eliminaComponente [⟨"A", "1", none, none, true, .niente⟩] "A").2).map
        (fun y => y.nome)).Nodup :=
  ⟨(registro_unicita [⟨"A", "1", none, none, true, .niente⟩]
      ⟨"A", "2", none, none, true, .niente⟩ ⟨"A", "1", none, none, true, .niente⟩ "A").1
      (by decide),
   (registro_unicita [⟨"A", "1", none, none, true, .niente⟩]
      ⟨"B", "2", none, none, true, .niente⟩ ⟨"A", "1", none, none, true, .niente⟩ "A").2.1
      (by decide),
   (registro_unicita [⟨"A", "1", none, none, true, .niente⟩]
      ⟨"A", "2", none, none, true, .niente⟩ ⟨"A", "1", none, none, true, .niente⟩ "A").2.2
      (by decide)⟩

theorem preprocessaComponente_error_of_bad (stato : List (String × SerialEntry))
    (c : RichiestaComponente) (h1 : lookupStato stato c.nome = none)
    (h2 : strFalsy c.code_12nc = true) :
    preprocessaComponente stato c = .error (.codiceMancante c.nome) := by
  unfold preprocessaComponente
  simp [h1, h2]

theorem preprocessaComponente_error_shape (stato : List (String × SerialEntry))
    (c : RichiestaComponente) (e : RunError)
    (h : preprocessaComponente stato c = .error e) : e = .codiceMancante c.nome := by
  unfold preprocessaComponente at h
  cases hm : lookupStato stato c.nome with
  | some x => simp [hm] at h
  | none =>
    cases hf : strFalsy c.code_12nc with
    | true =>
      simp [hm, hf] at h
      exact h.symm
    | false => simp [hm, hf] at h

theorem preprocessaComponente_ok_or_missing (stato : List (String × SerialEntry))
    (c : RichiestaComponente) :
    (∃ ci, preprocessaComponente stato c = .ok ci)
    ∨ preprocessaComponente stato c = .error (.codiceMancante c.nome) := by
  cases hr : preprocessaComponente stato c with
  | ok ci => exact Or.inl ⟨ci, rfl⟩
  | error e =>
    have he := preprocessaComponente_error_shape stato c e hr
    exact Or.inr (by rw [he])

theorem preprocessaLista_error_of_bad (stato : List (String × SerialEntry))
    (l : List RichiestaComponente)
    (hbad : ∃ c ∈ l, lookupStato stato c.nome = none ∧ strFalsy c.code_12nc = true) :
    ∃ n, preprocessaLista stato l = .error (.codiceMancante n) := by
  induction l with
  | nil =>
    obtain ⟨c, hc, -⟩ := hbad
    cases hc
  | cons c rest ih =>
    rcases preprocessaComponente_ok_or_missing stato c with ⟨ci, hok⟩ | herr
    · obtain ⟨x, hx, hxbad⟩ := hbad
      rcases List.mem_cons.mp hx with rfl | hxr
      · rw [preprocessaComponente_error_of_bad stato x hxbad.1 hxbad.2] at hok
        cases hok
      · obtain ⟨n, hn⟩ := ih ⟨x, hxr, hxbad⟩
        exact ⟨n, by simp [preprocessaLista, hok, hn]⟩
    · exact ⟨c.nome, by simp [preprocessaLista, herr]⟩

/-- Claim C8: a run whose request list contains a component with no prior
allocator state and no truthy part code fails with the mandatory-code error
during preprocessing, and both the allocator state and the registry come out
exactly as they went in (no allocation, no partial side effect). -/
theorem codice_mancante_abortisce (ora : Ora) (writeOk : Bool) (gsn : GestoreState)
    (gestione : Option (List Componente)) (bp bv : String) (nb : Int)
    (componenti : List RichiestaComponente) (bi : Int)
    (h1 : bp.isEmpty = false) (h2 : bv.isEmpty = false) (h3 : 0 < nb)
    (h4 : ∃ c ∈ componenti, lookupStato gsn.stato c.nome = none
          ∧ strFalsy c.code_12nc = true) :
    ∃ n, creaDocumentoConComponenti ora writeOk gsn gestione bp bv nb componenti bi
      = (.error (.codiceMancante n), gsn, gestione) := by
  obtain ⟨n, hn⟩ := preprocessaLista_error_of_bad gsn.stato componenti h4
  have hne : componenti.isEmpty = false := by
    obtain ⟨c, hc, -⟩ := h4
    cases componenti
    · cases hc
    · rfl
  refine ⟨n, ?_⟩
  simp [creaDocumentoConComponenti, h1, h2, hne, hn, not_le.mpr h3]

/-- Witness for C8 at a concrete input. -/
theorem codice_mancante_abortisce_witness :
    (("BP" : String).isEmpty = false ∧ ("BV" : String).isEmpty = false
      ∧ (0 : Int) < 1
      ∧ ∃ c ∈ [(⟨"NEW", none, none, none, 1, true, .niente⟩ : RichiestaComponente)],
          lookupStato ([] : List (String × SerialEntry)) c.nome = none
          ∧ strFalsy c.code_12nc = true)
    ∧ ∃ n, creaDocumentoConComponenti ⟨6, 2025, "t"⟩ true ⟨[], []⟩ none "BP" "BV" 1
        [⟨"NEW", none, none, none, 1, true, .niente⟩] 1
      = (.error (.codiceMancante n), ⟨[], []⟩, none) :=
  ⟨⟨by decide, by decide, by decide,
    ⟨⟨"NEW", none, none, none, 1, true, .niente⟩, by decide, by decide, by decide⟩⟩,
   codice_mancante_abortisce ⟨6, 2025, "t"⟩ true ⟨[], []⟩ none "BP" "BV" 1
     [⟨"NEW", none, none, none, 1, true, .niente⟩] 1 (by decide) (by decide) (by decide)
     ⟨⟨"NEW", none, none, none, 1, true, .niente⟩, by decide, by decide, by decide⟩⟩

theorem cerca_modifica (reg : List Componente) (nome : String) (nuovo : Componente)
    (hnn : nuovo.nome = nome) (hex : (cercaComponentePerNome reg nome).isSome = true) :
    cercaComponentePerNome (modificaComponente reg nome nuovo).2 nome = some nuovo := by
  induction reg with
  | nil => simp [cercaComponentePerNome] at hex
  | cons c rest ih =>
    by_cases h : c.nome = nome
    · simp [modificaComponente, h, cercaComponentePerNome, hnn]
    · have hex2 : (cercaComponentePerNome rest nome).isSome = true := by
        simpa [cercaComponentePerNome, h] using hex
      simpa [modificaComponente, h, cercaComponentePerNome] using ih hex2

theorem filtro_modifica (reg : List Componente) (nome : String) (nuovo : Componente)
    (hnn : nuovo.nome = nome) :
    ((modificaComponente reg nome nuovo).2).filter (fun c => !(c.nome == nome))
      = reg.filter (fun c => !(c.nome == nome)) := by
  induction reg with
  | nil => rfl
  | cons c rest ih =>
    by_cases h : c.nome = nome
    · simp [modificaComponente, h, hnn]
    · simp [modificaComponente, h, ih]

/-- Claim C10: the post-run write-back step for a component present in the
allocator state and in the registry rewrites the registry entry keeping the
stored name, part code, card prefix and indexing flag, changing only the
resume point (to lastSerial + 1) and the index policy (to the run-supplied
value); entries under other names are untouched, and in particular the code
supplied fresh for the run is never persisted (the request's code_12nc field
is universally quantified and absent from the result). -/
theorem writeback_frame (stato : List (String × SerialEntry)) (registro : List Componente)
    (componente : RichiestaComponente) (entry : SerialEntry) (comp_db : Componente)
    (hst : lookupStato stato componente.nome = some entry)
    (hdb : cercaComponentePerNome registro componente.nome = some comp_db) :
    cercaComponentePerNome (writeBackUno stato registro componente) componente.nome
      = some ⟨comp_db.nome, comp_db.code_12nc, some (entry.ultimo_sn + 1),
              comp_db.prefisso_tipo_scheda, comp_db.indicizzazione,
              componente.inizio_indicizzazione_prefisso⟩
    ∧ (writeBackUno stato registro componente).filter
          (fun c => !(c.nome == componente.nome))
      = registro.filter (fun c => !(c.nome == componente.nome)) := by
  have hname : comp_db.nome = componente.nome := by
    have hb := List.find?_some hdb
    simpa using hb
  unfold writeBackUno
  rw [hst, hdb]
  constructor
  · exact cerca_modifica registro componente.nome _ hname (by rw [hdb]; rfl)
  · exact filtro_modifica registro componente.nome _ hname

/-- Witness for C10 at a concrete input: the fresh run code "FRESH" does not
reach the registry, which keeps "STORED". -/
theorem writeback_frame_witness :
    (lookupStato [("S", ⟨7, "t", some "RC"⟩)] "S" = some ⟨7, "t", some "RC"⟩
      ∧ cercaComponentePerNome [⟨"S", "STORED", some 1, some "PX", false, .intero 4⟩] "S"
        = some ⟨"S", "STORED", some 1, some "PX", false, .intero 4⟩)
    ∧ cercaComponentePerNome
        (writeBackUno [("S", ⟨7, "t", some "RC"⟩)]
          [⟨"S", "STORED", some 1, some "PX", false, .intero 4⟩]
          ⟨"S", some 99, some "FP", some "FRESH", 1, true, .lista [9]⟩) "S"
      = some ⟨"S", "STORED", some 8, some "PX", false, .lista [9]⟩
    ∧ (writeBackUno [("S", ⟨7, "t", some "RC"⟩)]
          [⟨"S", "STORED", some 1, some "PX", false, .intero 4⟩]
          ⟨"S", some 99, some "FP", some "FRESH", 1, true, .lista [9]⟩).filter
        (fun c => !(c.nome == "S"))
      = ([⟨"S", "STORED", some 1, some "PX", false, .intero 4⟩] :
          List Componente).filter (fun c => !(c.nome == "S")) :=
  ⟨⟨by decide, by decide⟩,
   (writeback_frame [("S", ⟨7, "t", some "RC"⟩)]
     [⟨"S", "STORED", some 1, some "PX", false, .intero 4⟩]
     ⟨"S", some 99, some "FP", some "FRESH", 1, true, .lista [9]⟩
     ⟨7, "t", some "RC"⟩ ⟨"S", "STORED", some 1, some "PX", false, .intero 4⟩
     (by decide) (by decide)).1,
   (writeback_frame [("S", ⟨7, "t", some "RC"⟩)]
     [⟨"S", "STORED", some 1, some "PX", false, .intero 4⟩]
     ⟨"S", some 99, some "FP", some "FRESH", 1, true, .lista [9]⟩
     ⟨7, "t", some "RC"⟩ ⟨"S", "STORED", some 1, some "PX", false, .intero 4⟩
     (by decide) (by decide)).2⟩
